import Mathlib

/-!
Verification of the staged multi-agent review orchestration engine
(`app/orchestrator/planner_kernel.py`, `app/orchestrator/review_orchestrator.py`,
`app/orchestrator/agent_registry.py`, `app/agents/input_validation_agent.py`,
`app/agents/formatting_agent.py`, `app/domain/review_models.py`).

The Python source is shallowly embedded: every pure computation is translated
to an executable Lean function; calls into external collaborators (the LLM
clients, the base64 decoder of the standard library, the wall clock, the blob
log sink) are parameters of the embedding, supplied as oracles.  A raised
Python exception is modelled with `Except String`; `Option` models `None`.
-/

namespace EAReview

/-! ## JSON values

The planner oracle replies with text that `planner_kernel.PlannerAgent.plan`
feeds to `json.loads`.  A parsed JSON document is modelled by `Json`
(numbers are collapsed to `Int`: numeric precision plays no role — a
numeric stage entry is discarded and a numeric `notes` value is rejected
by the code under study regardless of its value). -/

inductive Json where
  | null
  | bool (b : Bool)
  | num (n : Int)
  | str (s : String)
  | arr (xs : List Json)
  | obj (kvs : List (String × Json))

/-! ## Agent registry (`app/orchestrator/agent_registry.py`) -/

/-- One entry of `_AGENTS`: a name and the declared dependency list. -/
structure AgentDescriptor where
  name : String
  dependencies : List String

/-- The `_AGENTS` table of `agent_registry.py`, in declaration order. -/
def agentsDefinition : List AgentDescriptor :=
  [ ⟨"demographics", []⟩,
    ⟨"image_analysis", []⟩,
    ⟨"triage", ["demographics", "image_analysis"]⟩,
    ⟨"remediation", ["triage"]⟩ ]

/-- Registry-declared dependencies of an agent name (empty for unknown names). -/
def depsOf (a : String) : List String :=
  match agentsDefinition.find? (fun d => d.name == a) with
  | some d => d.dependencies
  | none => []

/-! ## Execution plans and the ordering invariant (spec section 3) -/

/-- `PlanDecision` of `app/domain/review_models.py`.  The free-text `notes`
field is informational only (never consumed by any code under study) and is
omitted from the embedding. -/
structure PlanDecision where
  stages : List (List String)
  deriving DecidableEq

/-- One stage is admissible when every agent in it has all registry-declared
dependencies inside the already-`satisfied` set. -/
def stageOk (satisfied : List String) (stage : List String) : Bool :=
  stage.all (fun a => (depsOf a).all (fun d => satisfied.contains d))

/-- Walk the stages in order, maintaining the set of satisfied agents. -/
def orderedFrom (satisfied : List String) : List (List String) → Bool
  | [] => true
  | st :: rest => stageOk satisfied st && orderedFrom (satisfied ++ st) rest

/-- The ordering invariant: every agent of a stage has all of its
registry-declared dependencies placed in some strictly earlier stage. -/
def orderingInvariant (stages : List (List String)) : Bool :=
  orderedFrom [] stages

/-! ## Plan normalization (`PlannerAgent._normalize_stages`) -/

/-- The `allowed` set hard-coded in `_normalize_stages`. -/
def allowedAgents : List String :=
  ["demographics", "image_analysis", "triage", "remediation"]

/-- `PlannerAgent._normalize_stages`: keep only list-shaped stage entries;
within each stage keep only string entries naming a known agent; drop stages
that end up empty.  (Dependency order is nowhere re-checked.) -/
def normalize_stages (stages_raw : Json) : List (List String) :=
  match stages_raw with
  | .arr stages =>
      stages.filterMap (fun stage =>
        match stage with
        | .arr xs =>
            let agents := xs.filterMap (fun a =>
              match a with
              | .str s => if s ∈ allowedAgents then some s else none
              | _ => none)
            if agents.isEmpty then none else some agents
        | _ => none)
  | _ => []

/-! ## `PlannerAgent.plan` -/

/-- Outcome of running `json.loads` on the oracle's response text:
either the text was not valid JSON (`json.loads` raised, caught by the
`except` around it), or it parsed to a `Json` value. -/
inductive OracleResponse where
  | badJson
  | parsed (j : Json)

/-- The hard-coded fallback layout of `PlannerAgent.plan`. -/
def fallbackStages : List (List String) :=
  [["demographics", "image_analysis"], ["triage"], ["remediation"]]

/-- `Except.isOk` spelled out for reuse in statements. -/
def isOkE {ε α : Type} : Except ε α → Bool
  | .ok _ => true
  | .error _ => false

/-- Whether a value is accepted by pydantic v2 for the
`notes: Optional[str] = None` field of `PlanDecision` (the repository is
on pydantic v2, per `pydantic_settings`/`SettingsConfigDict` in
`settings.py`): `None` — also the `.get` result for a missing key — and
strings validate; any other value raises `ValidationError` when
`PlanDecision(stages=..., notes=notes)` is constructed. -/
def notesValid : Json → Bool
  | .null => true
  | .str _ => true
  | _ => false

/-- `PlannerAgent.plan`, after the oracle round-trip.  On a `json.loads`
failure the hard-coded fallback is returned.  On a parsed JSON object,
`raw.get("stages")` is normalized (`.get` of a missing key yields `None`,
modelled `Json.null`, which `_normalize_stages` maps to `[]`), and
constructing `PlanDecision(stages=stages, notes=notes)` validates the
`notes` value, raising `ValidationError` when it is neither absent, null
nor a string (the accepted notes text itself is informational and not
stored).  On any other parsed JSON value `raw.get(...)` raises
`AttributeError`, which no handler catches. -/
def plan (resp : OracleResponse) : Except String PlanDecision :=
  match resp with
  | .badJson => .ok ⟨fallbackStages⟩
  | .parsed (.obj kvs) =>
      if notesValid ((kvs.lookup "notes").getD .null) then
        .ok ⟨normalize_stages ((kvs.lookup "stages").getD .null)⟩
      else .error "ValidationError: notes must be a string"
  | .parsed _ => .error "AttributeError: response has no attribute get"

/-! ## Python-level values and string helpers

`MVal` models the Python values that travel through the review pipeline:
the submitted `metadata` mapping and the opaque per-agent outputs. -/

inductive MVal where
  | str (s : String)
  | num (n : Int)
  | noneV
  | listV (xs : List MVal)
  | dict (kvs : List (String × MVal))

/-- The single-quote character, kept out of string literals. -/
def sq : String := String.singleton (Char.ofNat 39)

/-- An opening curly brace, kept out of string literals. -/
def lbr : String := String.singleton (Char.ofNat 123)

/-- A closing curly brace, kept out of string literals. -/
def rbr : String := String.singleton (Char.ofNat 125)

/-- ASCII lower-casing of one character (model of `str.lower`, which the
validator only ever applies to the ASCII literal issue levels). -/
def lowerChar (c : Char) : Char :=
  if 'A' ≤ c && c ≤ 'Z' then Char.ofNat (c.toNat + 32) else c

/-- Model of `str.lower` for the ASCII strings in play. -/
def pyLower (s : String) : String := String.mk (s.toList.map lowerChar)

/-- ASCII whitespace (model of the character class removed by `str.strip`;
the strings in play contain no exotic Unicode whitespace). -/
def isSpaceChar (c : Char) : Bool :=
  c = ' ' || c = Char.ofNat 9 || c = Char.ofNat 10 || c = Char.ofNat 13

/-- Model of `str.strip`. -/
def pyStrip (s : String) : String :=
  String.mk (((s.toList.dropWhile isSpaceChar).reverse.dropWhile isSpaceChar).reverse)

/-- Whether one character list is a prefix of another. -/
def charsHavePre : List Char → List Char → Bool
  | [], _ => true
  | _ :: _, [] => false
  | a :: as, b :: bs => a = b && charsHavePre as bs

/-- Everything after the first comma, if any (model of
`s.find(",")` followed by the slice `s[comma_idx + 1 :]`). -/
def afterComma : List Char → Option (List Char)
  | [] => none
  | c :: cs => if c = ',' then some cs else afterComma cs

/-- The `data:`-URL handling of `InputValidationAgent.validate`: when the
trimmed value starts with `data:` and contains a comma, keep only the text
after the first comma. -/
def stripDataHeader (s : String) : String :=
  if charsHavePre "data:".toList s.toList then
    match afterComma s.toList with
    | some rest => String.mk rest
    | none => s
  else s

/-! ## Validation issues (`app/domain/review_models.py`,
`app/agents/input_validation_agent.py`) -/

/-- The `ValidationIssue` dataclass. -/
structure ValidationIssue where
  field : String
  message : String
  level : String
  deriving DecidableEq

/-- An element of `InputValidationResult.issues` as it exists at runtime.
The source is inconsistent about the representation: the
metadata-is-not-a-dict branch of `validate` stores `ValidationIssue`
dataclass instances (`dcIssue`), the main branch stores `asdict(issue)`
dictionaries (`dictIssue`), and `ReviewOrchestrator.review` passes plain
strings (`strItem`, from `[str(e)]`) to `_fail`. -/
inductive IssueItem where
  | dcIssue (i : ValidationIssue)
  | dictIssue (i : ValidationIssue)
  | strItem (s : String)
  deriving DecidableEq

/-- The `InputValidationResult` dataclass (with the runtime issue
representation, not the annotated `List[ValidationIssue]`). -/
structure InputValidationResult where
  is_valid : Bool
  issues : List IssueItem
  deriving DecidableEq

/-- The `level` attribute/key used by the `is_valid` computation. -/
def issueLevel : IssueItem → String
  | .dcIssue i => i.level
  | .dictIssue i => i.level
  | .strItem _ => ""

/-- The issue recorded when `arch_img_url` is absent, not a string, or
whitespace-only. -/
def missingImgIssue : ValidationIssue :=
  ⟨"metadata.arch_img_url", "Architecture image must be a non-empty base64 string.", "error"⟩

/-- The issue recorded when `arch_img_url` does not decode as base64. -/
def badB64Issue : ValidationIssue :=
  ⟨"metadata.arch_img_url", "arch_img_url is not valid base64-encoded image data.", "error"⟩

/-- The issue recorded when the metadata is not a dict. -/
def notDictIssue : ValidationIssue :=
  ⟨"metadata", "Metadata must be a JSON object.", "error"⟩

/-- `InputValidationAgent.validate`.  `b64ok` is the external
`base64.b64decode(..., validate=True)` call of the standard library,
`true` exactly when the string decodes and the decoded bytes are nonempty.
The agent never raises: every branch returns an `InputValidationResult`
(the enclosing catch-all `except` is unreachable in this model because the
embedded body is total). -/
def validate (metadata : MVal) (b64ok : String → Bool) : InputValidationResult :=
  match metadata with
  | .dict kvs =>
      let issues : List IssueItem :=
        match kvs.lookup "arch_img_url" with
        | some (.str s) =>
            if pyStrip s = "" then [.dictIssue missingImgIssue]
            else if b64ok (stripDataHeader (pyStrip s)) then []
            else [.dictIssue badB64Issue]
        | _ => [.dictIssue missingImgIssue]
      { is_valid := !(issues.any fun i => pyLower (issueLevel i) == "error"),
        issues := issues }
  | _ => { is_valid := false, issues := [.dcIssue notDictIssue] }

/-! ## Failure details (`ReviewOrchestrator._fail`) -/

/-- One element of the `failure_details` list built by `_fail`:
`asdict(i)` for a dataclass issue (a dict with `field`, `message` and
`level` keys), or the wrapper dict with the single key `message` for
anything else. -/
inductive FailDetail where
  | fieldEntry (i : ValidationIssue)
  | messageEntry (s : String)
  deriving DecidableEq

/-- Python `str()` of the dictionary `asdict(issue)` for a
`ValidationIssue` whose three values contain no quote or escape
characters (true of every issue literal in the source): insertion order
`field`, `message`, `level`, single-quoted. -/
def pyDictStr (i : ValidationIssue) : String :=
  lbr ++ sq ++ "field" ++ sq ++ ": " ++ sq ++ i.field ++ sq ++ ", " ++
  sq ++ "message" ++ sq ++ ": " ++ sq ++ i.message ++ sq ++ ", " ++
  sq ++ "level" ++ sq ++ ": " ++ sq ++ i.level ++ sq ++ rbr

/-- The per-element conversion of `_fail`:
`asdict(i) if is_dataclass(i) else ("message": str(i))`.  A `dictIssue` is
already a dict, hence not a dataclass, so it is stringified and wrapped. -/
def toFailureDetail : IssueItem → FailDetail
  | .dcIssue i => .fieldEntry i
  | .dictIssue i => .messageEntry (pyDictStr i)
  | .strItem s => .messageEntry s

/-! ## Final payloads (`app/agents/formatting_agent.py`)

Payloads are Python dicts; they are embedded as key/value association
lists in insertion order so that their key shape is part of the model. -/

/-- A value stored in a final payload dict. -/
inductive PVal where
  | vStr (s : String)
  | vMVal (v : MVal)
  | vPlan (p : PlanDecision)
  | vAgents (xs : List (String × Option MVal))
  | vStrList (xs : List String)
  | vOptStr (o : Option String)
  | vIssues (xs : List FailDetail)

/-- A payload dict: keys with values, in insertion order. -/
def Payload : Type := List (String × PVal)

/-- The keys of a payload, in insertion order. -/
def pkeys (p : Payload) : List String := p.map Prod.fst

/-- Look a key up in a payload. -/
def pget (p : Payload) (k : String) : Option PVal :=
  List.lookup k p

/-- `FormattingAgent.format_failure_response`.  The prompt construction
cannot raise (every field access has a fallback); the single fallible step
is the LLM call `self._agent.run`, supplied as the oracle `llm`
(`.ok text` models a reply, with `response.text or ""` already applied;
`.error e` models a raised exception, which propagates). -/
def format_failure_response (rid : MVal) (details : List FailDetail)
    (stage : String) (llm : Except String String) : Except String Payload :=
  match llm with
  | .error e => .error e
  | .ok text =>
      .ok [("review_id", .vMVal rid), ("status", .vStr "failure"),
           ("stage", .vStr stage), ("issues", .vIssues details),
           ("message", .vStr text)]

/-- Python dict assignment `d[k] = v`: update in place when the key
exists, else append. -/
def dictInsert (kvs : List (String × Option MVal)) (k : String) (v : Option MVal) :
    List (String × Option MVal) :=
  if kvs.any (fun p => p.1 == k) then
    kvs.map (fun p => if p.1 == k then (k, v) else p)
  else kvs ++ [(k, v)]

/-- The `agent_outputs` accumulation loop of `format_success_response`. -/
def buildOutputs (slots : String → Option MVal) :
    List String → List (String × Option MVal) → List (String × Option MVal)
  | [], acc => acc
  | a :: rest, acc => buildOutputs slots rest (dictInsert acc a (slots a))

/-- `FormattingAgent.format_success_response`.  `slots` models the
`getattr` candidate-chain lookup of per-agent outputs on the session
context (`to_dict` already applied; `none` models `None`); `llm` is the
summary LLM call, performed only when the last planned agent has an
output.  The payload carries `review_id`, `status`, `planner`, `agents`,
`missing_agents` and (added after construction) `last_agent_summary`. -/
def format_success_response (rid : MVal) (p : PlanDecision)
    (slots : String → Option MVal) (llm : Except String String) :
    Except String Payload :=
  let planned := p.stages.flatten
  let outputs := buildOutputs slots planned []
  let missing := planned.filter (fun a => (slots a).isNone)
  let lastOut : Option MVal :=
    match planned.getLast? with
    | some n => (List.lookup n outputs).getD none
    | none => none
  let mk : Option String → Payload := fun summary =>
    [("review_id", .vMVal rid), ("status", .vStr "success"),
     ("planner", .vPlan p), ("agents", .vAgents outputs),
     ("missing_agents", .vStrList missing),
     ("last_agent_summary", .vOptStr summary)]
  match lastOut with
  | some _ =>
      match llm with
      | .error e => .error e
      | .ok t => .ok (mk (some t))
  | none => .ok (mk none)

/-! ## Session context and telemetry (`app/domain/review_models.py`,
`ReviewOrchestrator._run_with_sla`) -/

/-- One `sla` record appended by `_run_with_sla`.  Wall-clock time is
modelled in integer ticks: `startTs`/`endTs` are the two `time.time()`
readings (the ISO renderings `start_time`/`end_time` of the same instants
are elided), and the `duration_ms`/`duration_sec` pair collapses to the
single tick difference `duration`. -/
structure SlaRecord where
  agent : String
  startTs : Int
  endTs : Int
  duration : Int
  status : String
  deriving DecidableEq

/-- One `llm_traces` record: `(agent, prompt, response, status)`. -/
structure TraceRec where
  agent : String
  prompt : String
  response : String
  status : String
  deriving DecidableEq

/-- The four bounded dimension scores of the `AgentScore` dataclass
(`notes` free text omitted).  Scores are rationals: the Python floats in
play are judge integers and small decimal weights, all exact. -/
structure AgentScore where
  accuracy : ℚ
  bias : ℚ
  hallucination : ℚ
  confidence : ℚ
  deriving DecidableEq

/-- `ctx.review_scores` as assigned by `_run_scoring`: the success dict,
or the degraded `status: failed` dict with the stringified error. -/
inductive ScoresVal where
  | success (per_agent : List (String × AgentScore × ℚ))
      (accuracy bias hallucination confidence score : ℚ)
  | failed (error : String)
  deriving DecidableEq

/-- The fields of `ReviewSessionContext` that the orchestration core
itself reads or writes.  The per-agent output slots
(`demographics_from_json`, `image_analysis`, `triage_results`, ...) are
written only by the opaque external agents and are not modelled; the
`last_*_tokens` counters are cleared and copied into `sla` records but
never tested, and are elided. -/
structure Ctx where
  review_id : MVal
  metadata : MVal
  validation_result : Option InputValidationResult
  agent_sla : List SlaRecord
  llm_traces : List TraceRec
  review_scores : Option ScoresVal

/-- Orchestration state threaded through one `review` call: the session
context, the number of clock readings taken so far, and the ordered list
of agent invocations (one entry per `_run_with_sla` call). -/
structure RunState where
  ctx : Ctx
  reads : Nat
  invoked : List String

/-- The outcome of one opaque agent call `await fn(ctx)`: the call
returned a result whose `error` attribute stringifies to `errorField`
(absent or falsy modelled as `""`), or the call raised. -/
inductive AgentOutcome where
  | ok (errorField : String)
  | raises (msg : String)
  deriving DecidableEq

/-- The `status` recorded by `_run_with_sla`: `success` unless the call
raised or returned a result with a non-empty `error` field (in which case
`raise RuntimeError(result.error)` fires inside the `try`). -/
def statusOf : AgentOutcome → String
  | .ok e => if e = "" then "success" else "failed"
  | .raises _ => "failed"

/-- The exception propagating out of `_run_with_sla`, if any: the raised
message, or the `RuntimeError(result.error)` for a non-empty error field. -/
def raisedOf : AgentOutcome → Option String
  | .ok e => if e = "" then none else some e
  | .raises m => some m

/-- Append the one `sla` record of a `_run_with_sla` call (its `finally`
block) and record the invocation.  `clock` is the external wall clock,
read twice. -/
def recordStage (clock : Nat → Int) (s : RunState) (name status : String) : RunState :=
  { ctx := { s.ctx with agent_sla := s.ctx.agent_sla ++
      [⟨name, clock s.reads, clock (s.reads + 1),
        clock (s.reads + 1) - clock s.reads, status⟩] },
    reads := s.reads + 2,
    invoked := s.invoked ++ [name] }

/-- `ReviewOrchestrator._run_with_sla` for an opaque agent: exactly one
`sla` record is appended on any outcome, and the original error (raised
or carried in the result's `error` field) is re-raised unchanged. -/
def run_with_sla (clock : Nat → Int) (s : RunState) (name : String)
    (outcome : AgentOutcome) : RunState × Option String :=
  (recordStage clock s name (statusOf outcome), raisedOf outcome)

/-! ## Scoring pass (`ReviewOrchestrator._run_scoring`) -/

/-- The module-level `AGENT_WEIGHTS` table (0.1, 0.4, 0.4, 0.1 as exact
rationals). -/
def AGENT_WEIGHTS : List (String × ℚ) :=
  [("demographics", 1/10), ("image_analysis", 2/5),
   ("remediation", 2/5), ("formatting", 1/10)]

/-- Python `round(x, 1)`.  (Python rounds exact midpoints to even; the
divergence at midpoints is irrelevant here, since no claim inspects a
rounded value.) -/
def round1 (q : ℚ) : ℚ := (round (10 * q) : ℤ) / 10

/-- The running state of the per-trace loop of `_run_scoring`:
the `per_agent` dict, the four `dimension_totals`, and `weight_total`. -/
structure ScoreAccum where
  per_agent : List (String × AgentScore × ℚ)
  accT : ℚ
  biasT : ℚ
  hallT : ℚ
  confT : ℚ
  weight_total : ℚ

/-- Python dict assignment for the `per_agent` dict. -/
def perAgentInsert (kvs : List (String × AgentScore × ℚ)) (k : String)
    (v : AgentScore × ℚ) : List (String × AgentScore × ℚ) :=
  if kvs.any (fun p => p.1 == k) then
    kvs.map (fun p => if p.1 == k then (k, v) else p)
  else kvs ++ [(k, v)]

/-- The `for trace in ctx.llm_traces` loop: traces whose agent has no
declared weight are skipped silently; otherwise the external judge
(`scorer`) is invoked, and a raised judge error aborts the loop and
propagates to the enclosing `except`. -/
def scoreTraces (scorer : TraceRec → Except String AgentScore) :
    List TraceRec → ScoreAccum → Except String ScoreAccum
  | [], acc => .ok acc
  | t :: rest, acc =>
      match AGENT_WEIGHTS.lookup t.agent with
      | none => scoreTraces scorer rest acc
      | some w =>
          match scorer t with
          | .error e => .error e
          | .ok sc =>
              scoreTraces scorer rest
                { per_agent := perAgentInsert acc.per_agent t.agent (sc, w),
                  accT := acc.accT + sc.accuracy * w,
                  biasT := acc.biasT + sc.bias * w,
                  hallT := acc.hallT + sc.hallucination * w,
                  confT := acc.confT + sc.confidence * w,
                  weight_total := acc.weight_total + w }

/-- The body of the `try` of `_run_scoring` after the loop: the
per-dimension normalization divides by `weight_total` with no guard, so a
zero total raises `ZeroDivisionError` (Python float division by zero
raises; its `str()` is the message recorded below). -/
def normalizeScores (acc : ScoreAccum) : Except String ScoresVal :=
  if acc.weight_total = 0 then .error "float division by zero"
  else
    let a := round1 (acc.accT / acc.weight_total)
    let b := round1 (acc.biasT / acc.weight_total)
    let h := round1 (acc.hallT / acc.weight_total)
    let c := round1 (acc.confT / acc.weight_total)
    .ok (.success acc.per_agent a b h c (round1 ((a + b + h + c) / 4)))

/-- `ReviewOrchestrator._run_scoring`: run the loop and the
normalization; any exception is caught and recorded as the degraded
`status: failed` dict.  The function itself never raises. -/
def run_scoring (ctx : Ctx) (scorer : TraceRec → Except String AgentScore) : Ctx :=
  match scoreTraces scorer ctx.llm_traces ⟨[], 0, 0, 0, 0, 0⟩ with
  | .error e => { ctx with review_scores := some (.failed e) }
  | .ok acc =>
      match normalizeScores acc with
      | .error e => { ctx with review_scores := some (.failed e) }
      | .ok sv => { ctx with review_scores := some sv }

/-! ## The orchestrator (`ReviewOrchestrator.review`)

The progress callback is modelled at its default `progress_cb=None`
(`emit` is then a no-op and cannot raise).  The external collaborators —
the wall clock, the base64 decoder, `uuid.uuid4()`, the five opaque
agents, the two formatter LLM calls and the judge — are the fields of
`Behavior`. -/

structure Behavior where
  clock : Nat → Int
  b64ok : String → Bool
  uuid : String
  preproc : AgentOutcome
  demographics : AgentOutcome
  image_analysis : AgentOutcome
  triage : AgentOutcome
  remediation : AgentOutcome
  /-- Outcome of the `formatting` step `await fn(ctx)`.  In the source this
  calls `format_success_response` with the required `plan` parameter
  missing, so at runtime it always raises a `TypeError`; the field keeps
  the outcome general so that the intended success path is also covered. -/
  formatting : Except String Payload
  /-- LLM outcome for the `_fail` call of the validation-failure branch. -/
  failLlmV : Except String String
  /-- LLM outcome for the `_fail` call of the outer `except` handler. -/
  failLlmE : Except String String
  scorer : TraceRec → Except String AgentScore

/-- The middle pipeline steps run through `_run_with_sla`, in source
order, with the stage names passed by `review`. -/
def middleStages (b : Behavior) : List (String × AgentOutcome) :=
  [("image_preprocessing", b.preproc), ("demographics", b.demographics),
   ("image_analysis", b.image_analysis), ("triage", b.triage),
   ("remediation", b.remediation)]

/-- Run the middle steps in order, stopping at the first exception. -/
def runStages (clock : Nat → Int) :
    RunState → List (String × AgentOutcome) → RunState × Option String
  | s, [] => (s, none)
  | s, (n, o) :: rest =>
      match run_with_sla clock s n o with
      | (s2, none) => runStages clock s2 rest
      | (s2, some e) => (s2, some e)

/-- `ReviewOrchestrator._fail`: wrap each issue, then format the failure
payload (whose only fallible step is the LLM call). -/
def fail (rid : MVal) (stage : String) (issues : List IssueItem)
    (llm : Except String String) : Except String Payload :=
  format_failure_response rid (issues.map toFailureDetail) stage llm

/-- The observable outcome of one `review` call: the returned payload or
the escaped exception, the final session context (absent when the call
raised before creating it), the ordered invocation list, and the number
of times `self._logger.log` was invoked via `_log`. -/
structure ReviewOut where
  result : Except String Payload
  ctx : Option Ctx
  invoked : List String
  logCount : Nat

/-- The outer `except Exception` handler of `review`: `_fail` with the
constant stage label `orchestration` and `[str(e)]`, then `_log`; an
exception raised by `_fail` itself escapes with no log call. -/
def exceptHandler (b : Behavior) (s : RunState) (e : String) : ReviewOut :=
  match fail s.ctx.review_id "orchestration" [.strItem e] b.failLlmE with
  | .ok payload => ⟨.ok payload, some s.ctx, s.invoked, 1⟩
  | .error e2 => ⟨.error e2, some s.ctx, s.invoked, 0⟩

/-- The state after the input-validation step of `review`: the validator
is internal embedded code, it never raises and its result has no `error`
attribute, so its `_run_with_sla` wrapper always records one `success`
`sla` record and returns the result, which the agent has stored in
`ctx.validation_result`. -/
def validationState (b : Behavior) (ctx0 : Ctx) : RunState :=
  let s1 := recordStage b.clock ⟨ctx0, 0, []⟩ "input_validation" "success"
  { s1 with ctx := { s1.ctx with
      validation_result := some (validate ctx0.metadata b.b64ok) } }

/-- The `try` body of `review` from input validation onwards, plus the
outer handler. -/
def reviewBody (b : Behavior) (ctx0 : Ctx) : ReviewOut :=
  let vres := validate ctx0.metadata b.b64ok
  let s1 := validationState b ctx0
  if vres.is_valid then
    match runStages b.clock s1 (middleStages b) with
    | (s2, some e) => exceptHandler b s2 e
    | (s2, none) =>
        match b.formatting with
        | .error e => exceptHandler b (recordStage b.clock s2 "formatting" "failed") e
        | .ok payload =>
            let s3 := recordStage b.clock s2 "formatting" "success"
            let ctx4 := run_scoring s3.ctx b.scorer
            ⟨.ok payload, some ctx4, s3.invoked, 1⟩
  else
    match fail s1.ctx.review_id "input_validation" vres.issues b.failLlmV with
    | .ok payload => ⟨.ok payload, some s1.ctx, s1.invoked, 1⟩
    | .error e => exceptHandler b s1 e

/-- `ReviewOrchestrator.review`.  `review_id` is
`metadata.get("REQUEST_NO", str(uuid.uuid4()))`; for a non-dict metadata
argument that very `.get` raises `AttributeError` before the `try` block,
so the exception escapes with no context, no payload and no log call. -/
def review (b : Behavior) (metadata : MVal) : ReviewOut :=
  match metadata with
  | .dict kvs =>
      let rid := (kvs.lookup "REQUEST_NO").getD (.str b.uuid)
      reviewBody b
        { review_id := rid, metadata := .dict kvs, validation_result := none,
          agent_sla := [], llm_traces := [], review_scores := none }
  | _ => ⟨.error "AttributeError: metadata has no attribute get", none, [], 0⟩

/-! ## Concrete fixtures for witnesses and counterexamples -/

/-- A metadata dict with a usable architecture image. -/
def validMeta : MVal :=
  .dict [("REQUEST_NO", .str "r1"), ("arch_img_url", .str "aGVsbG8=")]

/-- All-success behavior: identity clock, accepting base64 decoder,
every agent succeeds, formatting returns a one-key payload, both failure
LLM calls reply, the judge raises. -/
def okBehavior : Behavior :=
  ⟨fun n => (n : Int), fun _ => true, "u", .ok "", .ok "", .ok "", .ok "", .ok "",
   .ok [("k", .vStr "v")], .ok "vmsg", .ok "emsg", fun _ => .error "judge down"⟩

/-- `okBehavior` with the demographics agent raising. -/
def demoFailBehavior : Behavior :=
  { okBehavior with demographics := .raises "boom" }

/-- `okBehavior` with the demographics agent raising and the failure
formatter's LLM call in the `except` handler raising as well. -/
def doubleFailBehavior : Behavior :=
  { okBehavior with demographics := .raises "boom", failLlmE := .error "llm down" }

/-- A bare session context. -/
def blankCtx : Ctx := ⟨.str "r", .noneV, none, [], [], none⟩

/-! ## Helper lemmas -/

/-- Running the pipeline steps up to the first failing one: every step of
the all-successful `pre` and the failing step itself are invoked, nothing
after the failure is, and the untouched context fields are preserved. -/
theorem runStages_fail_spec (clock : Nat → Int) (name : String) (o : AgentOutcome)
    (m : String) (post : List (String × AgentOutcome)) (hf : raisedOf o = some m) :
    ∀ pre : List (String × AgentOutcome), (∀ q ∈ pre, raisedOf q.2 = none) →
    ∀ s : RunState, ∃ s2 : RunState,
      runStages clock s (pre ++ (name, o) :: post) = (s2, some m) ∧
      s2.invoked = s.invoked ++ pre.map Prod.fst ++ [name] ∧
      s2.ctx.llm_traces = s.ctx.llm_traces ∧
      s2.ctx.review_id = s.ctx.review_id ∧
      s2.ctx.review_scores = s.ctx.review_scores := by
  intro pre
  induction pre with
  | nil =>
    intro _ s
    refine ⟨recordStage clock s name (statusOf o), ?_, by simp [recordStage], rfl, rfl, rfl⟩
    simp [runStages, run_with_sla, hf]
  | cons q pre ih =>
    intro hpre s
    obtain ⟨qn, qo⟩ := q
    have hq : raisedOf qo = none := hpre ⟨qn, qo⟩ (List.mem_cons_self _ _)
    obtain ⟨s2, h1, h2, h3, h4, h5⟩ :=
      ih (fun p hp => hpre p (List.mem_cons_of_mem _ hp))
        (recordStage clock s qn (statusOf qo))
    refine ⟨s2, ?_, ?_, ?_, ?_, ?_⟩
    · simpa [runStages, run_with_sla, hq] using h1
    · simp [h2, recordStage]
    · simpa [recordStage] using h3
    · simpa [recordStage] using h4
    · simpa [recordStage] using h5

/-- Running an all-successful list of pipeline steps: no exception, every
step invoked once in order, untouched context fields preserved. -/
theorem runStages_ok_spec (clock : Nat → Int) :
    ∀ l : List (String × AgentOutcome), (∀ q ∈ l, raisedOf q.2 = none) →
    ∀ s : RunState, ∃ s2 : RunState,
      runStages clock s l = (s2, none) ∧
      s2.invoked = s.invoked ++ l.map Prod.fst ∧
      s2.ctx.llm_traces = s.ctx.llm_traces ∧
      s2.ctx.review_id = s.ctx.review_id ∧
      s2.ctx.review_scores = s.ctx.review_scores := by
  intro l
  induction l with
  | nil => intro _ s; exact ⟨s, rfl, by simp, rfl, rfl, rfl⟩
  | cons q l ih =>
    intro hl s
    obtain ⟨qn, qo⟩ := q
    have hq : raisedOf qo = none := hl ⟨qn, qo⟩ (List.mem_cons_self _ _)
    obtain ⟨s2, h1, h2, h3, h4, h5⟩ :=
      ih (fun p hp => hl p (List.mem_cons_of_mem _ hp))
        (recordStage clock s qn (statusOf qo))
    refine ⟨s2, ?_, ?_, ?_, ?_, ?_⟩
    · simpa [runStages, run_with_sla, hq] using h1
    · simp [h2, recordStage]
    · simpa [recordStage] using h3
    · simpa [recordStage] using h4
    · simpa [recordStage] using h5

/-- The pipeline steps never touch `llm_traces` or `review_scores`. -/
theorem runStages_preserves (clock : Nat → Int) :
    ∀ (l : List (String × AgentOutcome)) (s : RunState),
      (runStages clock s l).1.ctx.llm_traces = s.ctx.llm_traces ∧
      (runStages clock s l).1.ctx.review_scores = s.ctx.review_scores := by
  intro l
  induction l with
  | nil => intro s; exact ⟨rfl, rfl⟩
  | cons q l ih =>
    intro s
    obtain ⟨qn, qo⟩ := q
    rcases hq : raisedOf qo with _ | m
    · have := ih (recordStage clock s qn (statusOf qo))
      simpa [runStages, run_with_sla, hq, recordStage] using this
    · simp [runStages, run_with_sla, hq, recordStage]

/-- The outer `except` handler logs exactly once when it returns a
payload and not at all when `_fail` itself raises. -/
theorem exceptHandler_log (b : Behavior) (s : RunState) (e : String) :
    (exceptHandler b s e).logCount =
      (if isOkE (exceptHandler b s e).result then 1 else 0) := by
  unfold exceptHandler fail format_failure_response
  rcases hb : b.failLlmE with e2 | t <;> simp [hb, isOkE]

/-- The outer `except` handler returns the context it was given. -/
theorem exceptHandler_ctx (b : Behavior) (s : RunState) (e : String) :
    (exceptHandler b s e).ctx = some s.ctx := by
  unfold exceptHandler fail format_failure_response
  rcases hb : b.failLlmE with e2 | t <;> simp [hb]

/-- `_run_scoring` on a context with no recorded traces: the per-trace
loop never runs, `weight_total` stays `0`, the unguarded division raises
`ZeroDivisionError`, and the `except` records the degraded result. -/
theorem run_scoring_empty (c : Ctx) (scorer : TraceRec → Except String AgentScore)
    (hc : c.llm_traces = []) :
    run_scoring c scorer =
      { c with review_scores := some (.failed "float division by zero") } := by
  unfold run_scoring
  rw [hc]
  rfl

/-! ## Claim C1 -/

/-- Claim C1, counterexample.  A candidate whose single stage is the
known agent `remediation` passes `json.loads` and normalization
untouched, and the returned plan violates the ordering invariant
(`remediation` depends on `triage`, which is in no earlier stage):
plan validation does not re-verify dependency order. -/
theorem C1_counterexample :
    plan (.parsed (.obj [("stages", Json.arr [Json.arr [Json.str "remediation"]])])) =
      .ok ⟨[["remediation"]]⟩ ∧
    orderingInvariant [["remediation"]] = false :=
  ⟨rfl, rfl⟩

/-- Claim C1, amended.  For every candidate staged layout handed to
`_normalize_stages`, normalization never throws (it is a total function
of the embedding) and every stage of its output is nonempty and contains
only registry agent names; the dependency-ordering invariant, however, is
not re-verified (see the counterexample). -/
theorem C1_normalization_keeps_known_names (j : Json) :
    (normalize_stages j).all
      (fun st => !st.isEmpty && st.all (fun a => decide (a ∈ allowedAgents))) = true := by
  rw [List.all_eq_true]
  intro st hst
  match j with
  | .null | .bool _ | .num _ | .str _ | .obj _ => simp [normalize_stages] at hst
  | .arr stages =>
    simp only [normalize_stages] at hst
    rw [List.mem_filterMap] at hst
    obtain ⟨x, _, hfx⟩ := hst
    match x with
    | .null | .bool _ | .num _ | .str _ | .obj _ => simp at hfx
    | .arr xs =>
      simp only at hfx
      split at hfx
      · exact absurd hfx (by simp)
      · next hne =>
        obtain rfl : xs.filterMap _ = st := Option.some.inj hfx
        rw [Bool.and_eq_true]
        constructor
        · simpa using hne
        · rw [List.all_eq_true]
          intro a ha
          rw [List.mem_filterMap] at ha
          obtain ⟨y, _, hgy⟩ := ha
          match y with
          | .null | .bool _ | .num _ | .arr _ | .obj _ => simp at hgy
          | .str s =>
            simp only at hgy
            split at hgy
            · next hmem => obtain rfl := Option.some.inj hgy; simpa using hmem
            · exact absurd hgy (by simp)

/-! ## Claim C4 -/

/-- Claim C4, counterexample.  `plan` is not total, on two paths.  A
planner response that is valid JSON but not a JSON object (here the JSON
array `[]`) reaches `raw.get("stages")`, which raises `AttributeError`
outside the `except` that guards only `json.loads`; and a parsed JSON
object whose `notes` value is neither null nor a string (here the number
`7`) raises pydantic's `ValidationError` when `PlanDecision` is
constructed. -/
theorem C4_counterexample :
    plan (.parsed (.arr [])) = .error "AttributeError: response has no attribute get" ∧
    isOkE (plan (.parsed (.arr []))) = false ∧
    plan (.parsed (.obj [("stages", Json.arr []), ("notes", Json.num 7)])) =
      .error "ValidationError: notes must be a string" ∧
    isOkE (plan (.parsed (.obj [("stages", Json.arr []), ("notes", Json.num 7)]))) = false :=
  ⟨rfl, rfl, rfl, rfl⟩

/-- Claim C4, amended.  `plan` produces some plan without failing for an
unparsable response, and for a parsed JSON object exactly when its
`notes` entry is absent, null or a string (empty or unusable `stages`
candidates included); the synthesized fallback plan contains every agent
of the registry in exactly one stage while satisfying the
dependency-ordering invariant.  The operation is not total over all
oracle responses (see the counterexample). -/
theorem C4_plan_fallback_valid :
    (∀ kvs : List (String × Json),
      isOkE (plan (.parsed (.obj kvs))) = notesValid ((kvs.lookup "notes").getD .null)) ∧
    plan .badJson = .ok ⟨fallbackStages⟩ ∧
    agentsDefinition.all (fun d => fallbackStages.flatten.count d.name == 1) = true ∧
    orderingInvariant fallbackStages = true := by
  refine ⟨?_, rfl, rfl, rfl⟩
  intro kvs
  cases h : notesValid ((kvs.lookup "notes").getD .null) <;> simp [plan, h, isOkE]

/-! ## Claim C2 -/

/-- Claim C2, counterexample.  With the demographics agent raising
`boom`, no downstream agent is invoked — but the Failure Responder
receives the constant stage label `orchestration`, not the name of the
failing stage (`demographics`). -/
theorem C2_counterexample :
    (review demoFailBehavior
        (.dict [("REQUEST_NO", .str "r1"), ("arch_img_url", .str "aGVsbG8=")])).invoked =
      ["input_validation", "image_preprocessing", "demographics"] ∧
    pget ((review demoFailBehavior
        (.dict [("REQUEST_NO", .str "r1"), ("arch_img_url", .str "aGVsbG8=")])).result.toOption.getD [])
      "stage" = some (.vStr "orchestration") ∧
    "orchestration" ≠ "demographics" :=
  ⟨rfl, rfl, by decide⟩

/-- Claim C2, amended.  If any agent invocation terminates with an
unrecoverable error — it raises, or it returns a result carrying a
non-empty error field (`raisedOf` yields the originating message in both
cases) — then no downstream agent is ever invoked (the invocation list
ends at the failing stage), and the Failure Responder is invoked with the
originating error but with the constant stage label `orchestration`
rather than the failing stage's name. -/
theorem C2_hard_fail_no_downstream (b : Behavior) (kvs : List (String × MVal))
    (pre post : List (String × AgentOutcome)) (name m t : String) (o : AgentOutcome)
    (hvalid : (validate (.dict kvs) b.b64ok).is_valid = true)
    (hmid : middleStages b = pre ++ (name, o) :: post)
    (hpre : ∀ q ∈ pre, raisedOf q.2 = none)
    (hf : raisedOf o = some m)
    (hllm : b.failLlmE = .ok t) :
    (review b (.dict kvs)).invoked = "input_validation" :: (pre.map Prod.fst ++ [name]) ∧
    (review b (.dict kvs)).result =
      .ok [("review_id", .vMVal ((kvs.lookup "REQUEST_NO").getD (.str b.uuid))),
           ("status", .vStr "failure"), ("stage", .vStr "orchestration"),
           ("issues", .vIssues [.messageEntry m]), ("message", .vStr t)] := by
  simp only [review, reviewBody, hvalid, if_true, hmid]
  obtain ⟨s2, h1, h2, h3, h4, h5⟩ :=
    runStages_fail_spec b.clock name o m post hf pre hpre
      (validationState b
        { review_id := (kvs.lookup "REQUEST_NO").getD (.str b.uuid),
          metadata := .dict kvs, validation_result := none,
          agent_sla := [], llm_traces := [], review_scores := none })
  rw [h1]
  simp only [exceptHandler, fail, List.map, toFailureDetail, format_failure_response, hllm]
  refine ⟨?_, ?_⟩
  · rw [h2]; rfl
  · rw [h4]; rfl

/-- Claim C2, witness: the amended theorem applied with the demographics
agent as the failing invocation. -/
theorem C2_hard_fail_witness :
    (validate (.dict [("REQUEST_NO", MVal.str "r1"), ("arch_img_url", MVal.str "aGVsbG8=")])
        demoFailBehavior.b64ok).is_valid = true ∧
    ((review demoFailBehavior
        (.dict [("REQUEST_NO", .str "r1"), ("arch_img_url", .str "aGVsbG8=")])).invoked =
       ["input_validation", "image_preprocessing", "demographics"] ∧
     (review demoFailBehavior
        (.dict [("REQUEST_NO", .str "r1"), ("arch_img_url", .str "aGVsbG8=")])).result =
       .ok [("review_id", .vMVal (.str "r1")), ("status", .vStr "failure"),
            ("stage", .vStr "orchestration"),
            ("issues", .vIssues [.messageEntry "boom"]), ("message", .vStr "emsg")]) :=
  ⟨rfl,
   C2_hard_fail_no_downstream demoFailBehavior
     [("REQUEST_NO", .str "r1"), ("arch_img_url", .str "aGVsbG8=")]
     [("image_preprocessing", .ok "")]
     [("image_analysis", .ok ""), ("triage", .ok ""), ("remediation", .ok "")]
     "demographics" "boom" "emsg" (.raises "boom")
     rfl rfl (by decide) rfl rfl⟩

/-! ## Claim C3 -/

/-- Claim C3, counterexample.  The success payload built by
`format_success_response` has keys `review_id`, `status`, `planner`,
`agents`, `missing_agents`, `last_agent_summary` — no `stage`, `summary`
or `data` key — and the failure payload built by
`format_failure_response` carries `message`, not `summary`. -/
theorem C3_counterexample :
    Except.map pkeys
      (format_success_response (.str "r") ⟨[["demographics"]]⟩ (fun _ => none) (.ok "s")) =
      .ok ["review_id", "status", "planner", "agents", "missing_agents", "last_agent_summary"] ∧
    Except.map pkeys (format_failure_response (.str "r") [] "input_validation" (.ok "s")) =
      .ok ["review_id", "status", "stage", "issues", "message"] ∧
    "stage" ∉ ["review_id", "status", "planner", "agents", "missing_agents", "last_agent_summary"] ∧
    "summary" ∉ ["review_id", "status", "planner", "agents", "missing_agents", "last_agent_summary"] ∧
    "data" ∉ ["review_id", "status", "planner", "agents", "missing_agents", "last_agent_summary"] ∧
    "summary" ∉ ["review_id", "status", "stage", "issues", "message"] :=
  ⟨rfl, rfl, by decide, by decide, by decide, by decide⟩

/-- Claim C3, amended.  For every success payload the key shape is
`(review_id, status, planner, agents, missing_agents,
last_agent_summary)` with `status = success`, and for every failure
payload it is `(review_id, status, stage, issues, message)` with
`status = failure`; the spec's `(review_id, status, stage, summary,
data)` / `(review_id, status, stage, summary, issues)` shapes do not
occur. -/
theorem C3_payload_shapes :
    (∀ (rid : MVal) (pl : PlanDecision) (slots : String → Option MVal) (t : String),
      Except.map pkeys (format_success_response rid pl slots (.ok t)) =
        .ok ["review_id", "status", "planner", "agents", "missing_agents",
             "last_agent_summary"] ∧
      Except.map (fun p => pget p "status") (format_success_response rid pl slots (.ok t)) =
        .ok (some (.vStr "success"))) ∧
    (∀ (rid : MVal) (details : List FailDetail) (stage t : String),
      Except.map pkeys (format_failure_response rid details stage (.ok t)) =
        .ok ["review_id", "status", "stage", "issues", "message"] ∧
      Except.map (fun p => pget p "status") (format_failure_response rid details stage (.ok t)) =
        .ok (some (.vStr "failure"))) := by
  constructor
  · intro rid pl slots t
    constructor <;>
      (unfold format_success_response
       dsimp only
       split <;> simp [pkeys, pget, Except.map, List.lookup])
  · intro rid details stage t
    exact ⟨rfl, rfl⟩

/-! ## Claim C5 -/

/-- Claim C5: evaluation of `review` at the failing input — a metadata
dict with no `arch_img_url` key.  The error is caught before any
downstream agent runs and the payload has status `failure` and stage
`input_validation`; but because `validate` already applies
`asdict` to its issues, `_fail` wraps each of them as a dict with the
single key `message` holding the stringified issue dict, so the issues
list carries no field-level entry with a `field` key (contradicting both
the spec and the `issues: List[ValidationIssue]` annotation of
`InputValidationResult`). -/
theorem C5_missing_image_run :
    (review okBehavior (.dict [("REQUEST_NO", .str "r1")])).result =
      .ok [("review_id", .vMVal (.str "r1")), ("status", .vStr "failure"),
           ("stage", .vStr "input_validation"),
           ("issues", .vIssues [.messageEntry (pyDictStr missingImgIssue)]),
           ("message", .vStr "vmsg")] ∧
    (review okBehavior (.dict [("REQUEST_NO", .str "r1")])).invoked = ["input_validation"] ∧
    (∀ v : ValidationIssue,
      FailDetail.messageEntry (pyDictStr missingImgIssue) ≠ FailDetail.fieldEntry v) :=
  ⟨rfl, rfl, fun _ h => FailDetail.noConfusion h⟩

/-! ## Claim C6 -/

/-- Claim C6, counterexample.  With the demographics agent raising and
the failure formatter's own LLM call raising while handling it, `review`
propagates the exception to its caller and `self._logger.log` is never
invoked — so the log sink is not invoked exactly once on every call. -/
theorem C6_counterexample :
    (review doubleFailBehavior
        (.dict [("REQUEST_NO", .str "r1"), ("arch_img_url", .str "aGVsbG8=")])).logCount = 0 ∧
    (review doubleFailBehavior
        (.dict [("REQUEST_NO", .str "r1"), ("arch_img_url", .str "aGVsbG8=")])).result =
      .error "llm down" :=
  ⟨rfl, rfl⟩

/-- Claim C6, amended.  The log sink is invoked exactly once on every
`review` call that returns a payload (success, validation failure, or
hard-fail abort) and zero times on every call that escapes with an
exception (a non-dict metadata argument, or the failure formatter itself
raising while a failure is being handled). -/
theorem C6_log_iff_payload (b : Behavior) (metadata : MVal) :
    (review b metadata).logCount =
      (if isOkE (review b metadata).result then 1 else 0) := by
  match metadata with
  | .str _ | .num _ | .noneV | .listV _ => rfl
  | .dict kvs =>
    simp only [review, reviewBody]
    split
    · split
      · apply exceptHandler_log
      · split
        · apply exceptHandler_log
        · rfl
    · split
      · rfl
      · apply exceptHandler_log

/-! ## Claim C7 -/

/-- Claim C7: on any outcome of a wrapped agent invocation — success,
degraded result (non-empty error field), or thrown error — exactly one
`sla` record is appended, its status is `success` or `failed` (`success`
exactly when the call returned with no error), and its duration equals
the recorded end tick minus the recorded start tick, non-negative
whenever the two clock readings are in order. -/
theorem C7_sla_record (clock : Nat → Int) (s : RunState) (name : String)
    (o : AgentOutcome) (h : clock s.reads ≤ clock (s.reads + 1)) :
    (run_with_sla clock s name o).1.ctx.agent_sla =
      s.ctx.agent_sla ++ [⟨name, clock s.reads, clock (s.reads + 1),
        clock (s.reads + 1) - clock s.reads, statusOf o⟩] ∧
    (0 : Int) ≤ clock (s.reads + 1) - clock s.reads ∧
    (statusOf o = "success" ∨ statusOf o = "failed") ∧
    (statusOf o = "success" ↔ o = .ok "") := by
  refine ⟨rfl, by omega, ?_, ?_⟩
  · match o with
    | .ok e =>
        by_cases he : e = "" <;> simp [statusOf, he]
    | .raises m => simp [statusOf]
  · match o with
    | .ok e =>
        by_cases he : e = "" <;> simp [statusOf, he]
    | .raises m => simp [statusOf]

/-- Claim C7, witness: the theorem applied at the identity clock, a
blank state and a successful invocation. -/
theorem C7_sla_record_witness :
    (run_with_sla (fun n => (n : Int)) ⟨blankCtx, 0, []⟩ "demographics"
        (.ok "")).1.ctx.agent_sla =
      [⟨"demographics", 0, 1, 1, "success"⟩] ∧
    (0 : Int) ≤ 1 - 0 ∧
    ("success" = "success" ∨ ("success" : String) = "failed") ∧
    (("success" : String) = "success" ↔ AgentOutcome.ok "" = .ok "") :=
  C7_sla_record (fun n => (n : Int)) ⟨blankCtx, 0, []⟩ "demographics" (.ok "") (by decide)

/-! ## Claim C8 -/

/-- Claim C8: when the primary pipeline succeeds and formatting produces
the payload `p`, the Scoring Pass — which here always fails, since no
trace was ever recorded — has its failure caught and recorded in the
session's `review_scores` as the degraded `status: failed` result, while
the already-assembled primary payload `p` is still returned unchanged:
the scoring failure is never surfaced as a session failure. -/
theorem C8_scoring_isolated (b : Behavior) (kvs : List (String × MVal)) (p : Payload)
    (hvalid : (validate (.dict kvs) b.b64ok).is_valid = true)
    (hok : ∀ q ∈ middleStages b, raisedOf q.2 = none)
    (hfmt : b.formatting = .ok p) :
    (review b (.dict kvs)).result = .ok p ∧
    ∃ c : Ctx, (review b (.dict kvs)).ctx = some c ∧
      c.review_scores = some (.failed "float division by zero") := by
  simp only [review, reviewBody, hvalid, if_true]
  obtain ⟨s2, h1, h2, h3, h4, h5⟩ :=
    runStages_ok_spec b.clock (middleStages b) hok
      (validationState b
        { review_id := (kvs.lookup "REQUEST_NO").getD (.str b.uuid),
          metadata := .dict kvs, validation_result := none,
          agent_sla := [], llm_traces := [], review_scores := none })
  rw [h1, hfmt]
  dsimp only
  have hll : (recordStage b.clock s2 "formatting" "success").ctx.llm_traces = [] := by
    simpa [recordStage, validationState] using h3
  rw [run_scoring_empty _ _ hll]
  exact ⟨rfl, _, rfl, rfl⟩

/-- Claim C8, witness: the theorem applied to the all-success behavior. -/
theorem C8_scoring_isolated_witness :
    (validate (.dict [("REQUEST_NO", MVal.str "r1"), ("arch_img_url", MVal.str "aGVsbG8=")])
        okBehavior.b64ok).is_valid = true ∧
    (∀ q ∈ middleStages okBehavior, raisedOf q.2 = none) ∧
    okBehavior.formatting = .ok [("k", .vStr "v")] ∧
    ((review okBehavior
        (.dict [("REQUEST_NO", .str "r1"), ("arch_img_url", .str "aGVsbG8=")])).result =
       .ok [("k", .vStr "v")] ∧
     ∃ c : Ctx, (review okBehavior
        (.dict [("REQUEST_NO", .str "r1"), ("arch_img_url", .str "aGVsbG8=")])).ctx = some c ∧
       c.review_scores = some (.failed "float division by zero")) :=
  ⟨rfl, by decide, rfl,
   C8_scoring_isolated okBehavior
     [("REQUEST_NO", .str "r1"), ("arch_img_url", .str "aGVsbG8=")]
     [("k", .vStr "v")] rfl (by decide) rfl⟩

/-! ## Claim C9 -/

/-- Claim C9: on every `review` call that produces a session context, the
context's `llm_traces` list is empty — no component of the pipeline ever
appends to it — so whenever the Scoring Pass runs, its per-trace loop
never executes, `weight_total` stays `0.0`, the unguarded division raises
`ZeroDivisionError`, and `review_scores` is either still unset (the
scoring pass was never reached) or the degraded `status: failed` record
with that error; the success branch of the scoring pass is unreachable. -/
theorem C9_traces_empty_scoring_fails (b : Behavior) (metadata : MVal) (c : Ctx)
    (hc : (review b metadata).ctx = some c) :
    c.llm_traces = [] ∧
    (c.review_scores = none ∨
     c.review_scores = some (.failed "float division by zero")) := by
  match metadata with
  | .str _ | .num _ | .noneV | .listV _ => simp [review] at hc
  | .dict kvs =>
    simp only [review, reviewBody] at hc
    split at hc
    · split at hc
      · next s2 e heq =>
        rw [exceptHandler_ctx] at hc
        obtain rfl := Option.some.inj hc
        have hp := runStages_preserves b.clock (middleStages b) (validationState b
          { review_id := (kvs.lookup "REQUEST_NO").getD (.str b.uuid),
            metadata := .dict kvs, validation_result := none,
            agent_sla := [], llm_traces := [], review_scores := none })
        rw [heq] at hp
        exact ⟨hp.1, Or.inl hp.2⟩
      · next s2 heq =>
        have hp := runStages_preserves b.clock (middleStages b) (validationState b
          { review_id := (kvs.lookup "REQUEST_NO").getD (.str b.uuid),
            metadata := .dict kvs, validation_result := none,
            agent_sla := [], llm_traces := [], review_scores := none })
        rw [heq] at hp
        split at hc
        · rw [exceptHandler_ctx] at hc
          obtain rfl := Option.some.inj hc
          exact ⟨hp.1, Or.inl hp.2⟩
        · next p heq2 =>
          have hll : (recordStage b.clock s2 "formatting" "success").ctx.llm_traces = [] := by
            simpa [recordStage, validationState] using hp.1
          have hc2 : some (run_scoring
              (recordStage b.clock s2 "formatting" "success").ctx b.scorer) = some c := hc
          rw [run_scoring_empty _ _ hll] at hc2
          obtain rfl := Option.some.inj hc2
          exact ⟨hll, Or.inr rfl⟩
    · split at hc
      · obtain rfl := Option.some.inj hc
        exact ⟨rfl, Or.inl rfl⟩
      · rw [exceptHandler_ctx] at hc
        obtain rfl := Option.some.inj hc
        exact ⟨rfl, Or.inl rfl⟩

/-- Claim C9, witness: the theorem applied to the concrete context
produced by an all-success run. -/
theorem C9_traces_empty_witness :
    ((review okBehavior
        (.dict [("REQUEST_NO", .str "r1"), ("arch_img_url", .str "aGVsbG8=")])).ctx =
      some ((review okBehavior
        (.dict [("REQUEST_NO", .str "r1"), ("arch_img_url", .str "aGVsbG8=")])).ctx.getD blankCtx)) ∧
    (((review okBehavior
        (.dict [("REQUEST_NO", .str "r1"), ("arch_img_url", .str "aGVsbG8=")])).ctx.getD
          blankCtx).llm_traces = [] ∧
     (((review okBehavior
        (.dict [("REQUEST_NO", .str "r1"), ("arch_img_url", .str "aGVsbG8=")])).ctx.getD
          blankCtx).review_scores = none ∨
      ((review okBehavior
        (.dict [("REQUEST_NO", .str "r1"), ("arch_img_url", .str "aGVsbG8=")])).ctx.getD
          blankCtx).review_scores = some (.failed "float division by zero"))) :=
  ⟨rfl,
   C9_traces_empty_scoring_fails okBehavior
     (.dict [("REQUEST_NO", .str "r1"), ("arch_img_url", .str "aGVsbG8=")]) _ rfl⟩

end EAReview
